import Mathlib

/-!
Verification of the organic-scoring scheduler in
`atom/organic_scoring/organic_scoring_base.py`.

The Python class `OrganicScoringBase` is shallowly embedded below:

* numeric values (`trigger_frequency`, `trigger_frequency_min`,
  `trigger_scaling_factor`, the step counter, elapsed times) are modelled
  as rationals (`ℚ`), an exact superset of the Python `int`/`float`
  values the code manipulates;
* `sample_rate_dynamic` is translated directly, with Python's `int()`
  (truncation towards zero) modelled by `pyInt`;
* the scheduling loop `start_loop` together with `wait_until_next` is
  modelled as a small-step state machine (`loopStep`), so that the
  non-terminating inner `while True` of the steps branch of
  `wait_until_next` can be reasoned about with total functions;
* the step-counter operations `increment_step` / `set_step` are modelled
  with their lock acquisition made explicit, because they enter an
  `asyncio.Lock` with a synchronous `with` statement;
* exceptions are modelled with `Except`.
-/

/-- The `trigger` argument: `Literal["seconds", "steps"]`. -/
inductive Trigger where
  | seconds
  | steps
deriving DecidableEq, Repr

/-- The configuration fields stored by `OrganicScoringBase.__init__`:
`_trigger`, `_trigger_frequency`, `_trigger_min`, `_trigger_scaling_factor`. -/
structure Config where
  trigger : Trigger
  trigger_frequency : ℚ
  trigger_min : ℚ
  trigger_scaling_factor : ℚ
deriving DecidableEq

/-- Python's `int()` applied to a float/rational: truncation towards zero. -/
def pyInt (q : ℚ) : ℤ :=
  if 0 ≤ q then ⌊q⌋ else ⌈q⌉

/-- `OrganicScoringBase.sample_rate_dynamic` (source lines 206-213):
`delay = max(self._trigger_frequency - (size / self._trigger_scaling_factor), self._trigger_min)`;
`return delay if self._trigger == "seconds" else int(delay)`.
The organic queue's `size` is a natural number. -/
def sample_rate_dynamic (cfg : Config) (size : ℕ) : ℚ :=
  let delay := max (cfg.trigger_frequency - (size : ℚ) / cfg.trigger_scaling_factor)
    cfg.trigger_min
  if cfg.trigger = Trigger.seconds then delay else (pyInt delay : ℚ)

/-- The constructor arguments of `OrganicScoringBase.__init__` that feed the
scheduling core. -/
structure InitArgs where
  trigger : Trigger
  trigger_frequency : ℚ
  trigger_frequency_min : ℚ
  trigger_scaling_factor : ℚ

/-- `OrganicScoringBase.__init__` (source lines 60-83): stores the
configuration and then runs
`assert self._trigger_scaling_factor > 0, "The scaling factor must be higher than 0."`,
raising `AssertionError` when the condition fails.  The error is raised
before the axon hooks are attached and before any loop is started. -/
def scoringInit (a : InitArgs) : Except String Config :=
  if 0 < a.trigger_scaling_factor then
    Except.ok
      { trigger := a.trigger
        trigger_frequency := a.trigger_frequency
        trigger_min := a.trigger_frequency_min
        trigger_scaling_factor := a.trigger_scaling_factor }
  else
    Except.error "The scaling factor must be higher than 0."

/-- The body of `increment_step` that runs under the step lock
(source lines 99-100): `if self._trigger == "steps": self._step_counter += 1`. -/
def increment_step_body (trigger : Trigger) (counter : ℚ) : ℚ :=
  if trigger = Trigger.steps then counter + 1 else counter

/-- The body of `set_step` that runs under the step lock
(source lines 109-110): `if self._trigger == "steps": self._step_counter = step`. -/
def set_step_body (trigger : Trigger) (step : ℚ) (counter : ℚ) : ℚ :=
  if trigger = Trigger.steps then step else counter

/-- `self._step_lock` is created as `asyncio.Lock()` (source line 83), and
`increment_step` / `set_step` enter it with a *synchronous* `with` statement
(source lines 98, 108).  `asyncio.Lock` does not implement the synchronous
context-manager protocol: in CPython up to 3.9 its inherited `__enter__`
raises `RuntimeError`, and since 3.10 (where the mixin only provides
`__aenter__`/`__aexit__`) the `with` statement raises `TypeError`.  Either
way the statement raises before the body is ever executed. -/
def withStepLockSync (_body : ℚ → ℚ) (_counter : ℚ) : Except Unit ℚ :=
  Except.error ()

/-- `OrganicScoringBase.increment_step` (source lines 96-100): returns the
new counter value if the call completes, or an error if it raises. -/
def increment_step (trigger : Trigger) (counter : ℚ) : Except Unit ℚ :=
  withStepLockSync (increment_step_body trigger) counter

/-- `OrganicScoringBase.set_step` (source lines 102-110). -/
def set_step (trigger : Trigger) (step : ℚ) (counter : ℚ) : Except Unit ℚ :=
  withStepLockSync (set_step_body trigger step) counter

/-!
## The scheduling loop as a small-step state machine

`start_loop` (source lines 138-157) together with `wait_until_next`
(source lines 170-204) is a cooperative loop whose steps-mode waiting
branch contains a `while True` with no `break` or `return`.  We model the
loop as a total one-step transition function on an explicit control state,
so that every control point of the Python code is a `Phase` and one
`loopStep` performs the work between two suspension points (or one branch
decision).
-/

/-- Control points of `start_loop` / `wait_until_next`. -/
inductive Phase where
  /-- top of `while not self._should_exit` (source line 142) -/
  | top
  /-- inside `while self._step_counter < self._trigger_frequency` (line 144) -/
  | gate
  /-- about to call `await self.forward()` (line 148) -/
  | sampling
  /-- about to run `wait_until_next(timer_elapsed)` (line 151), with the
      elapsed time extracted from the logs -/
  | waiting (elapsed : ℚ)
  /-- inside the steps-mode `while True` of `wait_until_next` (lines 200-204),
      with the `dynamic_unit` computed on entry -/
  | stepsDrain (dyn : ℚ)
  /-- inside the `except` handler, about to `await asyncio.sleep(1)` (line 157) -/
  | backoff
  /-- the `while` loop has exited -/
  | done
deriving DecidableEq, Repr

/-- The mutable state of the scheduler observed by the loop:
`_step_counter`, `_should_exit`, `_is_running`, plus the number of
`forward` calls made so far (the iteration index). -/
structure LoopState where
  phase : Phase
  counter : ℚ
  shouldExit : Bool
  isRunning : Bool
  iter : ℕ
deriving DecidableEq, Repr

/-- Observable actions the loop performs between control points. -/
inductive Event where
  /-- `await asyncio.sleep(0.1)` in the step gate (line 145) -/
  | gateSleep
  /-- `await self.forward()` for the given iteration index (line 148) -/
  | forwardCall (i : ℕ)
  /-- `bt.logging.error(...)` in the `except` handler (lines 154-156) -/
  | errorLogged
  /-- `await asyncio.sleep(1)` in the `except` handler (line 157) -/
  | backoffSleep
  /-- `await asyncio.sleep(sleep_duration)` in the seconds branch of
      `wait_until_next` (line 197) -/
  | waitSleep (d : ℚ)
  /-- `await asyncio.sleep(1)` inside the steps-mode `while True` (line 204) -/
  | drainSleep
deriving DecidableEq, Repr

/-- The loop's environment: the result of each `forward` call (the `ok`
payload is `logs.get("total_elapsed_time")`, `none` when the key is absent;
`error` models a raised exception), and the organic queue size read by
`sample_rate_dynamic` after the given number of completed iterations. -/
structure Env where
  fw : ℕ → Except Unit (Option ℚ)
  qs : ℕ → ℕ

/-- Modelled from the spec: `start()` and `stop()` are not under `src/`
(only `start_loop` is).  Per the spec, the loop's `isRunning` flag
transitions to false when the loop exits after `shouldExit` is observed
at the top of Idle. -/
def loopExitState (s : LoopState) : LoopState :=
  { s with phase := Phase.done, isRunning := false }

/-- Modelled from the spec: `stop()` is not under `src/`; it requests
cooperative termination by setting the `shouldExit` flag. -/
def stop (s : LoopState) : LoopState :=
  { s with shouldExit := true }

/-- One small step of `start_loop` / `wait_until_next`, translated from
source lines 138-157 and 192-204. -/
def loopStep (cfg : Config) (env : Env) (s : LoopState) : LoopState × List Event :=
  match s.phase with
  | Phase.top =>
      if s.shouldExit then (loopExitState s, [])
      else if cfg.trigger = Trigger.steps then ({ s with phase := Phase.gate }, [])
      else ({ s with phase := Phase.sampling }, [])
  | Phase.gate =>
      if s.counter < cfg.trigger_frequency then (s, [Event.gateSleep])
      else ({ s with phase := Phase.sampling }, [])
  | Phase.sampling =>
      match env.fw s.iter with
      | Except.ok logs =>
          ({ s with phase := Phase.waiting (logs.getD 0), iter := s.iter + 1 },
            [Event.forwardCall s.iter])
      | Except.error _ =>
          ({ s with phase := Phase.backoff, iter := s.iter + 1 },
            [Event.forwardCall s.iter, Event.errorLogged])
  | Phase.waiting elapsed =>
      let dyn := sample_rate_dynamic cfg (env.qs s.iter)
      if cfg.trigger = Trigger.seconds then
        ({ s with phase := Phase.top }, [Event.waitSleep (max (dyn - elapsed) 0)])
      else
        ({ s with phase := Phase.stepsDrain dyn }, [])
  | Phase.stepsDrain dyn =>
      if dyn ≤ s.counter then ({ s with counter := s.counter - dyn }, [])
      else (s, [Event.drainSleep])
  | Phase.backoff =>
      ({ s with phase := Phase.top }, [Event.backoffSleep])
  | Phase.done => (s, [])

/-- Run `n` small steps, collecting the emitted events. -/
def loopRun (cfg : Config) (env : Env) : ℕ → LoopState → LoopState × List Event
  | 0, s => (s, [])
  | n + 1, s =>
      let p := loopStep cfg env s
      let q := loopRun cfg env n p.1
      (q.1, p.2 ++ q.2)

/-!
## Step-counter sequences

For the non-negativity invariant we consider arbitrary interleavings of
the three operations that touch `_step_counter`: the bodies of
`increment_step` and `set_step`, and the guarded decrement performed by
the steps branch of `wait_until_next` (source lines 200-204, which
subtracts `dynamic_unit` only when `self._step_counter >= dynamic_unit`,
and otherwise leaves the counter unchanged for that check).
-/

/-- One operation on the step counter.  `dec size` is one check of the
steps-mode drain loop with the organic queue at the given size. -/
inductive StepOp where
  | inc
  | setTo (v : ℚ)
  | dec (size : ℕ)
deriving DecidableEq, Repr

/-- Apply one step-counter operation, following the corresponding source
bodies. -/
def applyStepOp (cfg : Config) (counter : ℚ) : StepOp → ℚ
  | StepOp.inc => increment_step_body cfg.trigger counter
  | StepOp.setTo v => set_step_body cfg.trigger v counter
  | StepOp.dec size =>
      let dyn := sample_rate_dynamic cfg size
      if dyn ≤ counter then counter - dyn else counter

/-- Apply a sequence of step-counter operations from left to right. -/
def runStepOps (cfg : Config) : List StepOp → ℚ → ℚ
  | [], counter => counter
  | op :: ops, counter => runStepOps cfg ops (applyStepOp cfg counter op)

/-- `true` unless the operation is a `set` with a negative value. -/
def nonnegSet : StepOp → Bool
  | StepOp.setTo v => decide (0 ≤ v)
  | _ => true

/-!
## Hook installation

`OrganicScoringBase.__init__` attaches the axon hooks (source lines
87-94), passing `None` for each of `_blacklist_fn` / `_priority_fn` /
`_verify_fn` that the subclass did not override, and always passing
`_on_organic_entry` as the forward function.
-/

/-- A subclass of `OrganicScoringBase`, abstracted to which of the three
optional hooks it overrides. -/
structure Subclass where
  overridesVerify : Bool
  overridesBlacklist : Bool
  overridesPriority : Bool
deriving DecidableEq, Repr

/-- The three optional hooks. -/
inductive HookName where
  | verify
  | blacklist
  | priority
deriving DecidableEq, Repr

/-- Modelled from the spec: `is_overridden` is imported from
`atom/organic_scoring/utils.py`, which is not under `src/`.  Per the spec
it is a reflective check of whether the owning subclass supplied a
non-default implementation of the given bound method. -/
def is_overridden (sub : Subclass) : HookName → Bool
  | HookName.verify => sub.overridesVerify
  | HookName.blacklist => sub.overridesBlacklist
  | HookName.priority => sub.overridesPriority

/-- The arguments `__init__` passes to `self._axon.attach` (source lines
87-94).  `none` models passing Python `None`, i.e. the hook being reported
as not installed; `some ()` models passing the bound hook method. -/
structure AttachCall where
  forward_fn : Option Unit
  blacklist_fn : Option Unit
  priority_fn : Option Unit
  verify_fn : Option Unit
deriving DecidableEq, Repr

/-- The `self._axon.attach(...)` call made at construction:
`forward_fn=self._on_organic_entry`, and for each optional hook
`hook if is_overridden(hook) else None`. -/
def attach_hooks (sub : Subclass) : AttachCall :=
  { forward_fn := some ()
    blacklist_fn := if is_overridden sub HookName.blacklist then some () else none
    priority_fn := if is_overridden sub HookName.priority then some () else none
    verify_fn := if is_overridden sub HookName.verify then some () else none }

/-!
## Concrete instances used for evaluation
-/

/-- A seconds-mode configuration (`trigger_frequency=10`, `trigger_frequency_min=2`,
`trigger_scaling_factor=5`, the documented example values). -/
def cfgSec : Config :=
  { trigger := Trigger.seconds, trigger_frequency := 10, trigger_min := 2
    trigger_scaling_factor := 5 }

/-- A steps-mode configuration with the same numbers. -/
def cfgStp : Config :=
  { trigger := Trigger.steps, trigger_frequency := 10, trigger_min := 2
    trigger_scaling_factor := 5 }

/-- An environment whose `forward` always succeeds with
`logs = {"total_elapsed_time": 3}` and whose organic queue is empty. -/
def envOk : Env := { fw := fun _ => Except.ok (some 3), qs := fun _ => 0 }

/-- An environment whose `forward` always raises. -/
def envErr : Env := { fw := fun _ => Except.error (), qs := fun _ => 0 }

/-- A loop state at the top of the `while` loop. -/
def stTop : LoopState :=
  { phase := Phase.top, counter := 0, shouldExit := false, isRunning := true, iter := 0 }

/-- A loop state inside the step gate with the counter above the configured
frequency of `cfgStp`. -/
def stGate : LoopState :=
  { phase := Phase.gate, counter := 12, shouldExit := false, isRunning := true, iter := 0 }

/-- A loop state about to call `forward`. -/
def stSampling : LoopState :=
  { phase := Phase.sampling, counter := 0, shouldExit := false, isRunning := true, iter := 0 }

/-- A loop state about to run `wait_until_next(timer_elapsed=3)`. -/
def stWaiting : LoopState :=
  { phase := Phase.waiting 3, counter := 0, shouldExit := false, isRunning := true, iter := 1 }

/-- A loop state inside the steps-mode drain of `wait_until_next` with
`dynamic_unit = 5`, reached by every steps-mode iteration. -/
def stDrain : LoopState :=
  { phase := Phase.stepsDrain 5, counter := 0, shouldExit := false, isRunning := true, iter := 1 }

/-!
## Theorems
-/

theorem pyInt_eq_floor (q : ℚ) (h : 0 ≤ q) : pyInt q = ⌊q⌋ := by
  simp [pyInt, h]

theorem sample_rate_dynamic_seconds (cfg : Config) (size : ℕ)
    (h : cfg.trigger = Trigger.seconds) :
    sample_rate_dynamic cfg size =
      max (cfg.trigger_frequency - (size : ℚ) / cfg.trigger_scaling_factor)
        cfg.trigger_min := by
  simp [sample_rate_dynamic, h]

theorem sample_rate_dynamic_steps (cfg : Config) (size : ℕ)
    (h : cfg.trigger = Trigger.steps) :
    sample_rate_dynamic cfg size =
      (pyInt (max (cfg.trigger_frequency - (size : ℚ) / cfg.trigger_scaling_factor)
        cfg.trigger_min) : ℚ) := by
  simp [sample_rate_dynamic, h]

/-- C10: construction raises the configuration error (the
`AssertionError` with message "The scaling factor must be higher than 0.")
exactly when `trigger_scaling_factor ≤ 0`, before any loop activity; for
every positive scaling factor it instead returns the configuration. -/
theorem C10_init_scaling_guard (a : InitArgs) :
    (scoringInit a = Except.error "The scaling factor must be higher than 0." ↔
      a.trigger_scaling_factor ≤ 0) ∧
    ((∃ cfg, scoringInit a = Except.ok cfg) ↔ 0 < a.trigger_scaling_factor) := by
  rcases lt_or_le 0 a.trigger_scaling_factor with h | h
  · constructor
    · simp [scoringInit, h, not_le.mpr h]
    · simp [scoringInit, h]
  · constructor
    · simp [scoringInit, not_lt.mpr h, h]
    · simp [scoringInit, not_lt.mpr h, not_lt.mpr h]

/-- C2 (counterexample): the claim fails in Steps mode.  With the valid
configuration `trigger="steps"`, `trigger_frequency=10`,
`trigger_frequency_min=5/2`, `trigger_scaling_factor=5` and queue size
`40`, the delay before truncation is `max(10 - 40/5, 5/2) = 5/2`, and
`int(5/2) = 2` is strictly below the configured minimum `5/2`. -/
theorem C2_counterexample_steps_truncation :
    0 < (Config.mk Trigger.steps 10 (5/2) 5).trigger_scaling_factor ∧
    sample_rate_dynamic (Config.mk Trigger.steps 10 (5/2) 5) 40 = 2 ∧
    sample_rate_dynamic (Config.mk Trigger.steps 10 (5/2) 5) 40 <
      (Config.mk Trigger.steps 10 (5/2) 5).trigger_min := by
  refine ⟨by norm_num, ?_, ?_⟩ <;>
  · rw [sample_rate_dynamic_steps _ _ rfl]
    norm_num [pyInt]

/-- C2 (amended): for every queue size and every configuration with
`trigger_scaling_factor > 0` and `trigger_frequency_min ≥ 0`, the trigger
controller's result is at least `trigger_frequency_min` in Seconds mode
(no truncation); in Steps mode the truncated result is at least
`⌊trigger_frequency_min⌋`, and hence at least `trigger_frequency_min`
whenever the configured minimum is an integer (it can fall below a
non-integral minimum by less than 1). -/
theorem C2_amended_rate_lower_bound (cfg : Config) (size : ℕ)
    (hscale : 0 < cfg.trigger_scaling_factor) (hmin : 0 ≤ cfg.trigger_min) :
    (cfg.trigger = Trigger.seconds →
      cfg.trigger_min ≤ sample_rate_dynamic cfg size) ∧
    (cfg.trigger = Trigger.steps →
      (⌊cfg.trigger_min⌋ : ℚ) ≤ sample_rate_dynamic cfg size) ∧
    (cfg.trigger = Trigger.steps → cfg.trigger_min = (⌊cfg.trigger_min⌋ : ℚ) →
      cfg.trigger_min ≤ sample_rate_dynamic cfg size) := by
  have hsteps : cfg.trigger = Trigger.steps →
      (⌊cfg.trigger_min⌋ : ℚ) ≤ sample_rate_dynamic cfg size := by
    intro h
    rw [sample_rate_dynamic_steps cfg size h,
      pyInt_eq_floor _ (le_trans hmin (le_max_right _ _))]
    exact_mod_cast Int.floor_mono (le_max_right _ _)
  refine ⟨fun h => ?_, hsteps, fun h hint => ?_⟩
  · rw [sample_rate_dynamic_seconds cfg size h]
    exact le_max_right _ _
  · calc cfg.trigger_min = (⌊cfg.trigger_min⌋ : ℚ) := hint
      _ ≤ sample_rate_dynamic cfg size := hsteps h

theorem C2_amended_rate_lower_bound_witness :
    (cfgStp.trigger = Trigger.seconds →
      cfgStp.trigger_min ≤ sample_rate_dynamic cfgStp 40) ∧
    (cfgStp.trigger = Trigger.steps →
      (⌊cfgStp.trigger_min⌋ : ℚ) ≤ sample_rate_dynamic cfgStp 40) ∧
    (cfgStp.trigger = Trigger.steps → cfgStp.trigger_min = (⌊cfgStp.trigger_min⌋ : ℚ) →
      cfgStp.trigger_min ≤ sample_rate_dynamic cfgStp 40) :=
  C2_amended_rate_lower_bound cfgStp 40 (by norm_num [cfgStp]) (by norm_num [cfgStp])

/-- C5: at construction the axon `attach` call always installs the
`forward_fn` (`_on_organic_entry`), and installs each of the
verify/blacklist/priority hooks (rather than passing `None`) exactly when
the subclass overrides it. -/
theorem C5_hooks_installed_iff_overridden (sub : Subclass) :
    (attach_hooks sub).forward_fn = some () ∧
    ((attach_hooks sub).verify_fn ≠ none ↔ sub.overridesVerify = true) ∧
    ((attach_hooks sub).blacklist_fn ≠ none ↔ sub.overridesBlacklist = true) ∧
    ((attach_hooks sub).priority_fn ≠ none ↔ sub.overridesPriority = true) := by
  obtain ⟨v, b, p⟩ := sub
  cases v <;> cases b <;> cases p <;> simp [attach_hooks, is_overridden]

/-- C6: for every prior counter value and trigger kind, `increment_step`
and `set_step` raise (the synchronous `with` on the `asyncio.Lock` fails
before their bodies run), so neither call completes normally. -/
theorem C6_step_calls_raise (trigger : Trigger) (c v : ℚ) :
    increment_step trigger c = Except.error () ∧
    set_step trigger v c = Except.error () :=
  ⟨rfl, rfl⟩

/-- C7: starting from `_step_counter = 0`, after any sequence of
increment-body operations, set-body operations with non-negative values,
and guarded loop decrements, the counter is never negative. -/
theorem C7_counter_never_negative (cfg : Config) (ops : List StepOp)
    (h : ops.all nonnegSet = true) :
    0 ≤ runStepOps cfg ops 0 := by
  suffices key : ∀ (l : List StepOp) (c : ℚ), l.all nonnegSet = true → 0 ≤ c →
      0 ≤ runStepOps cfg l c from key ops 0 h le_rfl
  intro l
  induction l with
  | nil =>
    intro c _ hc
    exact hc
  | cons op rest ih =>
    intro c hall hc
    rw [List.all_cons, Bool.and_eq_true] at hall
    refine ih _ hall.2 ?_
    cases op with
    | inc =>
      by_cases htr : cfg.trigger = Trigger.steps <;>
        simp [applyStepOp, increment_step_body, htr] <;> linarith
    | setTo v =>
      have hv : (0 : ℚ) ≤ v := by simpa [nonnegSet] using hall.1
      by_cases htr : cfg.trigger = Trigger.steps <;>
        simp [applyStepOp, set_step_body, htr] <;> linarith
    | dec size =>
      by_cases hle : sample_rate_dynamic cfg size ≤ c <;>
        simp [applyStepOp, hle] <;> linarith

theorem C7_counter_never_negative_witness :
    0 ≤ runStepOps cfgStp [StepOp.inc, StepOp.setTo 3, StepOp.dec 0, StepOp.inc] 0 :=
  C7_counter_never_negative cfgStp _ (by simp [nonnegSet])

theorem loopRun_done (cfg : Config) (env : Env) (s : LoopState)
    (h : s.phase = Phase.done) (n : ℕ) : loopRun cfg env n s = (s, []) := by
  induction n with
  | zero => rfl
  | succ n ih => simp [loopRun, loopStep, h, ih]

/-- C1: contrary to the claim, the steps branch of `wait_until_next`
never proceeds to Idle.  Its `while True` (source lines 200-204) has no
`break` or `return`: starting inside it, after any number of small steps
the machine is still inside it (when the counter is at least the dynamic
unit it subtracts and re-checks instead of returning; otherwise it sleeps
1 second and re-checks, forever). -/
theorem C1_steps_drain_never_returns (cfg : Config) (env : Env) (dyn c : ℚ)
    (ex ir : Bool) (i n : ℕ) :
    ((loopRun cfg env n
      { phase := Phase.stepsDrain dyn, counter := c, shouldExit := ex,
        isRunning := ir, iter := i }).1).phase = Phase.stepsDrain dyn := by
  induction n generalizing c with
  | zero => rfl
  | succ n ih =>
    by_cases hle : dyn ≤ c <;> simp [loopRun, loopStep, hle] <;> exact ih _

/-- C3: when `forward` raises, the loop catches it (the exception does not
escape), logs it, backs off for 1 second, returns to the top of the loop
still running, and, if no stop was requested, proceeds into the next
iteration (the step gate in Steps mode, `forward` directly in Seconds
mode). -/
theorem C3_forward_error_recovery (cfg : Config) (env : Env) (s : LoopState)
    (hph : s.phase = Phase.sampling) (herr : env.fw s.iter = Except.error ())
    (hrun : s.isRunning = true) :
    loopRun cfg env 2 s =
      ({ s with phase := Phase.top, iter := s.iter + 1 },
        [Event.forwardCall s.iter, Event.errorLogged, Event.backoffSleep]) ∧
    (loopRun cfg env 2 s).1.isRunning = true ∧
    (loopRun cfg env 2 s).1.phase ≠ Phase.done ∧
    (s.shouldExit = false →
      (loopRun cfg env 3 s).1.phase =
        (if cfg.trigger = Trigger.steps then Phase.gate else Phase.sampling)) := by
  obtain ⟨ph, c, ex, ir, i⟩ := s
  dsimp only at hph herr hrun
  subst hph
  subst hrun
  refine ⟨?_, ?_, ?_, ?_⟩
  · simp [loopRun, loopStep, herr]
  · simp [loopRun, loopStep, herr]
  · simp [loopRun, loopStep, herr]
  · intro hex
    dsimp only at hex
    subst hex
    cases htr : cfg.trigger <;> simp [loopRun, loopStep, herr, htr]

theorem C3_forward_error_recovery_witness :
    loopRun cfgSec envErr 2 stSampling =
      ({ stSampling with phase := Phase.top, iter := stSampling.iter + 1 },
        [Event.forwardCall stSampling.iter, Event.errorLogged, Event.backoffSleep]) ∧
    (loopRun cfgSec envErr 2 stSampling).1.isRunning = true ∧
    (loopRun cfgSec envErr 2 stSampling).1.phase ≠ Phase.done ∧
    (stSampling.shouldExit = false →
      (loopRun cfgSec envErr 3 stSampling).1.phase =
        (if cfgSec.trigger = Trigger.steps then Phase.gate else Phase.sampling)) :=
  C3_forward_error_recovery cfgSec envErr stSampling rfl rfl rfl

/-- C4: after `stop()` is called, a loop standing at the top of Idle
observes `shouldExit` on its next step and exits without starting any
further iteration: for every number of subsequent steps the machine is in
the exited state with `isRunning = false`, and no events at all (no
`forward` call, no sleep) are ever emitted again. -/
theorem C4_stop_exits_at_idle_top (cfg : Config) (env : Env) (s : LoopState)
    (h : s.phase = Phase.top) (n : ℕ) :
    loopRun cfg env (n + 1) (stop s) =
      ({ s with phase := Phase.done, shouldExit := true, isRunning := false }, []) := by
  have h1 : loopStep cfg env (stop s) =
      ({ s with phase := Phase.done, shouldExit := true, isRunning := false }, []) := by
    simp [loopStep, stop, h, loopExitState]
  have h2 : loopRun cfg env n
      ({ s with phase := Phase.done, shouldExit := true, isRunning := false }) =
      ({ s with phase := Phase.done, shouldExit := true, isRunning := false }, []) :=
    loopRun_done cfg env _ rfl n
  simp [loopRun, h1, h2]

theorem C4_stop_exits_at_idle_top_witness :
    loopRun cfgSec envOk 3 (stop stTop) =
      ({ stTop with phase := Phase.done, shouldExit := true, isRunning := false }, []) :=
  C4_stop_exits_at_idle_top cfgSec envOk stTop rfl 2

/-- C8: at the Idle-to-Sampling transition, Seconds mode proceeds to
`forward` immediately with no gating, while Steps mode enters the gate,
which sleeps 0.1 s while `_step_counter < _trigger_frequency` and
proceeds once `_trigger_frequency ≤ _step_counter`; the gate's threshold
is the static configured frequency, and its behaviour is independent of
the environment (queue size), hence of the dynamic annealed unit. -/
theorem C8_idle_gate_static_frequency (cfg : Config) (env env2 : Env)
    (s g : LoopState)
    (hph : s.phase = Phase.top) (hex : s.shouldExit = false)
    (hg : g.phase = Phase.gate) :
    (cfg.trigger = Trigger.seconds →
      loopStep cfg env s = ({ s with phase := Phase.sampling }, [])) ∧
    (cfg.trigger = Trigger.steps →
      loopStep cfg env s = ({ s with phase := Phase.gate }, [])) ∧
    (g.counter < cfg.trigger_frequency →
      loopStep cfg env g = (g, [Event.gateSleep])) ∧
    (cfg.trigger_frequency ≤ g.counter →
      loopStep cfg env g = ({ g with phase := Phase.sampling }, [])) ∧
    loopStep cfg env g = loopStep cfg env2 g := by
  refine ⟨fun htr => ?_, fun htr => ?_, fun hlt => ?_, fun hge => ?_, ?_⟩
  · simp [loopStep, hph, hex, htr]
  · simp [loopStep, hph, hex, htr]
  · simp [loopStep, hg, hlt]
  · simp [loopStep, hg, not_lt.mpr hge]
  · simp [loopStep, hg]

theorem C8_idle_gate_static_frequency_witness :
    loopStep cfgStp envOk stTop = ({ stTop with phase := Phase.gate }, []) ∧
    loopStep cfgStp envOk stGate = ({ stGate with phase := Phase.sampling }, []) := by
  have h := C8_idle_gate_static_frequency cfgStp envOk envErr stTop stGate rfl rfl rfl
  exact ⟨h.2.1 rfl, h.2.2.2.1 (by norm_num [cfgStp, stGate])⟩

/-- C9: in Seconds mode, the waiting phase sleeps for exactly
`max(dynamic_unit - total_elapsed_time, 0)`, where the elapsed time is
read from the telemetry returned by `forward` via
`logs.get("total_elapsed_time", 0)` (so an absent key is treated as 0). -/
theorem C9_seconds_wait_sleep (cfg : Config) (env : Env) (s w : LoopState)
    (logs : Option ℚ) (elapsed : ℚ)
    (hsec : cfg.trigger = Trigger.seconds)
    (hph : s.phase = Phase.sampling) (hok : env.fw s.iter = Except.ok logs)
    (hw : w.phase = Phase.waiting elapsed) :
    loopStep cfg env s =
      ({ s with phase := Phase.waiting (logs.getD 0), iter := s.iter + 1 },
        [Event.forwardCall s.iter]) ∧
    (logs = none → logs.getD 0 = 0) ∧
    loopStep cfg env w =
      ({ w with phase := Phase.top },
        [Event.waitSleep
          (max (sample_rate_dynamic cfg (env.qs w.iter) - elapsed) 0)]) := by
  refine ⟨?_, ?_, ?_⟩
  · simp [loopStep, hph, hok]
  · rintro rfl
    rfl
  · simp [loopStep, hw, hsec]

theorem C9_seconds_wait_sleep_witness :
    loopStep cfgSec envOk stSampling =
      ({ stSampling with
          phase := Phase.waiting ((some (3 : ℚ)).getD 0)
          iter := stSampling.iter + 1 },
        [Event.forwardCall stSampling.iter]) ∧
    ((some (3 : ℚ)) = none → (some (3 : ℚ)).getD 0 = 0) ∧
    loopStep cfgSec envOk stWaiting =
      ({ stWaiting with phase := Phase.top },
        [Event.waitSleep
          (max (sample_rate_dynamic cfgSec (envOk.qs stWaiting.iter) - 3) 0)]) :=
  C9_seconds_wait_sleep cfgSec envOk stSampling stWaiting (some 3) 3 rfl rfl rfl rfl

theorem stepsDrain_stuck (cfg : Config) (env : Env) (dyn c : ℚ)
    (ex ir : Bool) (i n : ℕ) :
    ∃ c2, (loopRun cfg env n
      { phase := Phase.stepsDrain dyn, counter := c, shouldExit := ex,
        isRunning := ir, iter := i }).1 =
      { phase := Phase.stepsDrain dyn, counter := c2, shouldExit := ex,
        isRunning := ir, iter := i } := by
  induction n generalizing c with
  | zero => exact ⟨c, rfl⟩
  | succ n ih =>
    by_cases hle : dyn ≤ c <;> simp [loopRun, loopStep, hle] <;> exact ih _

/-- C4 (counterexample): if `stop()` is called while the steps-mode loop
is inside the `wait_until_next` drain (a state every steps-mode iteration
reaches), then even 600 further steps later — at least 600 seconds of
1-second drain sleeps, far beyond any iteration's sleep granularity —
`isRunning` is still true and the loop has not exited, because the drain
never returns to the top of the loop where `shouldExit` is observed. -/
theorem C4_counterexample_steps_stop_never_observed :
    ((loopRun cfgStp envOk 600 (stop stDrain)).1).isRunning = true ∧
    ((loopRun cfgStp envOk 600 (stop stDrain)).1).phase ≠ Phase.done := by
  have hs : stop stDrain =
      { phase := Phase.stepsDrain 5, counter := 0, shouldExit := true
        isRunning := true, iter := 1 } := rfl
  obtain ⟨c2, hc⟩ := stepsDrain_stuck cfgStp envOk 5 0 true true 1 600
  rw [hs, hc]
  exact ⟨rfl, by simp⟩
